import Mathlib

/-!
# Verification of the `redash_pandas` client (src/redash_pandas/redash.py)

Shallow embedding of the asynchronous query client: job-status polling
(`Redash._wait_for_job_status`), the single-query pipeline (`Redash.query`),
constructor configuration (`Redash.__init__`), row-paginated fetching
(`Redash.safe_query`) and the date-range partitioner
(`Redash.period_limited_query`).

Network effects are modelled by scripting the remote service's responses:
the poll loop consumes a list of scripted job-status responses (each tagged
with the wall-clock time elapsed, in seconds, at the moment the loop performs
its timeout check for that iteration), and the result fetch is an oracle from
a result id to a scripted response.
-/

namespace Redash

/-- Job status enum (`JobStatus` in redash.py, Redash API values 1..5). -/
inductive JobStatus
  | pending
  | started
  | success
  | failure
  | cancelled
deriving DecidableEq

/-- The numeric value carried by the `IntEnum` in the source. -/
def JobStatus.toNat : JobStatus → Nat
  | .pending => 1
  | .started => 2
  | .success => 3
  | .failure => 4
  | .cancelled => 5

/-- The poll-loop guard `job_status in (JobStatus.PENDING, JobStatus.STARTED)`. -/
def JobStatus.isActive (s : JobStatus) : Bool :=
  s = JobStatus.pending || s = JobStatus.started

/-- One scripted response to a job-status GET (`self.client.get(job_status_uri, ...)`):
either HTTP 502, or a JSON body whose `job.status` field is the given status. -/
inductive PollEntry
  | gateway502
  | update (s : JobStatus)
deriving DecidableEq

/-- How `_wait_for_job_status` ends, together with the number of status GETs it
performed. `finished` is the normal loop exit (the *local* `job_status`
variable is no longer PENDING/STARTED — the function returns `None`, so this
local value is invisible to the caller); `gatewayReturn` is the early `return`
on a 502 response; `timedOut` is the `RuntimeError` raised when
`query_wait_time > query_timeout`; `outOfScript` is a model artifact for a run
longer than the scripted responses. -/
inductive WaitResult
  | finished (finalLocalStatus : JobStatus) (gets : Nat)
  | gatewayReturn (gets : Nat)
  | timedOut (gets : Nat)
  | outOfScript (gets : Nat)
deriving DecidableEq

/-- `Redash._wait_for_job_status` (redash.py lines 121-154).

Loop body, in source order: GET the job-status URI; if the HTTP status is 502,
log and `return`; otherwise read `job["status"]` into the local `job_status`;
then raise `RuntimeError` if the elapsed wait time exceeds `query_timeout`;
otherwise sleep 1 second and re-check the loop guard.  `script` supplies one
entry per GET; each entry's second component is the elapsed time at that
iteration's timeout check.  `gets` counts status GETs performed so far. -/
def wait_for_job_status (query_timeout : Nat) (job_status : JobStatus)
    (script : List (PollEntry × Nat)) (gets : Nat) : WaitResult :=
  if job_status.isActive then
    match script with
    | [] => .outOfScript gets
    | (.gateway502, _) :: _ => .gatewayReturn (gets + 1)
    | (.update s, t) :: rest =>
      if query_timeout < t then .timedOut (gets + 1)
      else wait_for_job_status query_timeout s rest (gets + 1)
  else .finished job_status gets

/-- The `job` object extracted from the submission response
(`result["job"]` in `Redash.query`).  `error` is the `job["error"]` text
(empty when the service sent none); `query_result_id` is `none` when the
key is absent from the JSON object. -/
structure Job where
  id : Nat
  status : JobStatus
  error : String
  query_result_id : Option Nat
deriving DecidableEq

/-- The JSON body of the submission POST response: either a top-level
`message` field (credential/endpoint error) or a `job` object. -/
inductive SubmitResult
  | message (msg : String)
  | job (j : Job)
deriving DecidableEq

/-- One scripted response to the result-fetch GET
(`/api/query_results/{id}`): HTTP 502, a well-formed
`query_result.data` payload, or a body whose nested structure is missing
(making the DataFrame conversion raise). -/
inductive FetchResp
  | code502
  | payload (columns : List String) (rows : List (List Int))
  | badShape
deriving DecidableEq

/-- How one `Redash.query` call ends. Constructors follow the source's
control flow in order:
* `configMessageError` — `"message" in result` (line 200);
* `cancelledBeforePoll` / `failedBeforePoll` — terminal status in the
  submission response itself (lines 208-214);
* `jobTimeout` — `RuntimeError` propagated from the poll loop's timeout
  check, carrying the number of status GETs performed;
* `pollOutOfScript` — model artifact (script exhausted while polling);
* `jobFailedClassified` — the post-loop FAILURE branch (lines 225-234);
  the flag records whether `"signal 9" in err_msg` chose the
  resource-exhaustion hint;
* `cancelledAfterPoll` — the post-loop CANCELLED branch (lines 236-238);
* `keyErrorResultId` — `job["query_result_id"]` raised `KeyError`;
* `fetchGateway502` — `RuntimeError("Gateway error (502) occurred.")`
  raised on a 502 result-fetch response (lines 247-250);
* `conversionError` — DataFrame conversion failed (lines 266-268);
* `dataframe` — the returned DataFrame's columns and rows. -/
inductive QueryOutcome
  | configMessageError (msg : String)
  | cancelledBeforePoll (err : String)
  | failedBeforePoll (err : String)
  | jobTimeout (gets : Nat)
  | pollOutOfScript (gets : Nat)
  | jobFailedClassified (resourceExhaustion : Bool)
  | cancelledAfterPoll (err : String)
  | keyErrorResultId
  | fetchGateway502
  | conversionError
  | dataframe (columns : List String) (rows : List (List Int))
deriving DecidableEq

/-- `"signal 9" in err_msg` (redash.py line 231). -/
def mentionsSignal9 (msg : String) : Bool :=
  (msg.splitOn "signal 9").length != 1

/-- Result retrieval and DataFrame conversion (redash.py lines 240-268):
read `job["query_result_id"]`, GET the query-results URI, raise on a 502,
then build the DataFrame from `query_result.data`. -/
def fetchStage (job : Job) (fetch : Nat → FetchResp) : QueryOutcome :=
  match job.query_result_id with
  | none => .keyErrorResultId
  | some rid =>
    match fetch rid with
    | .code502 => .fetchGateway502
    | .payload cols rows => .dataframe cols rows
    | .badShape => .conversionError

/-- `Redash.query` (redash.py lines 156-268), given the scripted submission
response, poll script and result-fetch oracle.

Faithful to the source: `_wait_for_job_status` returns `None` and rebinds
only its *local* `job_status`, so after the poll loop the caller's
`job_status` and `job` are still the values taken from the submission
response; the checks at lines 225 and 236 therefore re-test the
pre-poll status. -/
def query (sub : SubmitResult) (script : List (PollEntry × Nat))
    (query_timeout : Nat) (fetch : Nat → FetchResp) : QueryOutcome :=
  match sub with
  | .message m => .configMessageError m
  | .job job =>
    let job_status := job.status
    if job_status = JobStatus.cancelled then .cancelledBeforePoll job.error
    else if job_status = JobStatus.failure then .failedBeforePoll job.error
    else
      match wait_for_job_status query_timeout job_status script 0 with
      | .timedOut n => .jobTimeout n
      | .outOfScript n => .pollOutOfScript n
      | _ =>
        -- the wait call returned None: caller's job_status is unchanged
        if job_status = JobStatus.failure then
          .jobFailedClassified (mentionsSignal9 job.error)
        else if job_status = JobStatus.cancelled then
          .cancelledAfterPoll job.error
        else fetchStage job fetch

/-- Contents of the credentials JSON file: `json.load` followed by
`secrets.get("endpoint")` / `secrets.get("apikey")`, each `None` when the
key is absent. -/
structure CredFile where
  endpoint : Option String
  apikey : Option String
deriving DecidableEq

/-- Python truthiness of `self.endpoint` / `self.apikey` after `__init__`
assigns them: falsy when `None` or the empty string. -/
def truthyOpt : Option String → Bool
  | none => false
  | some s => s ≠ ""

/-- `Redash.__init__` configuration logic (redash.py lines 99-112).

`credentials` models the path argument: `none` for the empty (falsy) path,
`some f` for a non-empty path whose JSON file parses to `f`.  When a file is
given, `self.endpoint` / `self.apikey` are taken from the file only; otherwise
from the explicit arguments.  Construction raises `ValueError` unless both the
stored values are truthy. -/
def redash_init (credentials : Option CredFile) (apikey endpoint : String) :
    Except String (Option String × Option String) :=
  let storedEndpoint : Option String :=
    match credentials with
    | some f => f.endpoint
    | none => some endpoint
  let storedApikey : Option String :=
    match credentials with
    | some f => f.apikey
    | none => some apikey
  if !truthyOpt storedApikey || !truthyOpt storedEndpoint then
    .error "You are missing the Redash API key or the Redash endpoint."
  else .ok (storedEndpoint, storedApikey)

/-- The claim's merge rule, stated from the spec's words: endpoint after
merging file-provided and explicit values, explicit values overriding file
values. -/
def specMergedEndpoint (credentials : Option CredFile) (endpoint : String) : String :=
  if endpoint ≠ "" then endpoint
  else ((credentials.bind CredFile.endpoint).getD "")

/-- The claim's merge rule for the api key (explicit overrides file). -/
def specMergedApikey (credentials : Option CredFile) (apikey : String) : String :=
  if apikey ≠ "" then apikey
  else ((credentials.bind CredFile.apikey).getD "")

/-- The claim's success condition: both endpoint and api key non-empty after
the merge. -/
def specMergeSucceeds (credentials : Option CredFile) (apikey endpoint : String) : Bool :=
  specMergedEndpoint credentials endpoint ≠ "" && specMergedApikey credentials apikey ≠ ""

/-- What `__init__` as written requires for success: when a credentials file
is supplied its values are used exclusively (the explicit arguments are
ignored), otherwise the explicit arguments are used; both chosen values must
be present and non-empty. -/
def chosenValuesPresent (credentials : Option CredFile) (apikey endpoint : String) : Bool :=
  match credentials with
  | some f => truthyOpt f.endpoint && truthyOpt f.apikey
  | none => endpoint ≠ "" && apikey ≠ ""

/-- A Python value stored in the `params` dict (ints for
`offset_rows`/`limit_rows`, strings for `start_date`/`end_date` and
caller-supplied values). -/
inductive PyVal
  | int (n : Int)
  | str (s : String)
deriving DecidableEq

/-- The `params` dict, as an insertion-ordered association list. -/
abbrev Dict := List (String × PyVal)

/-- `d[k] = v` / `d.update({k: v})` for one key: overwrite the value in place
when the key is present (Python dicts keep one entry per key, at its original
insertion position), else append the new entry at the end. -/
def dictSet (d : Dict) (k : String) (v : PyVal) : Dict :=
  match d with
  | [] => [(k, v)]
  | p :: rest => if p.1 = k then (k, v) :: rest else p :: dictSet rest k v

/-- `d.get(k)` (also `k in d` via `isSome`). -/
def dictGet (d : Dict) (k : String) : Option PyVal :=
  match d with
  | [] => none
  | p :: rest => if p.1 = k then some p.2 else dictGet rest k

/-- One iteration's `params.update({"offset_rows": start_ix, "limit_rows": limit})`
in `Redash.safe_query` (redash.py line 299). -/
def safeQueryUpdate (d : Dict) (start_ix limit : Nat) : Dict :=
  dictSet (dictSet d "offset_rows" (.int start_ix)) "limit_rows" (.int limit)

/-- The `for batch_ix in range(max_iter)` loop of `Redash.safe_query`
(redash.py lines 296-312), with the underlying `self.query` call abstracted
as an oracle `fetch : offset → limit → rows`.  Returns the collected pages
(`dfs`), the number of `self.query` calls made, and the `params` dict's
state when the loop ends.  `batch_ix` is the current index, `rem` the
remaining iterations. -/
def safeQueryGo (fetch : Nat → Nat → List (List Int)) (limit : Nat) :
    Dict → Nat → Nat → List (List (List Int)) × Nat × Dict
  | d, _, 0 => ([], 0, d)
  | d, batch_ix, rem + 1 =>
    let start_ix := batch_ix * limit
    let d' := safeQueryUpdate d start_ix limit
    let partial_df := fetch start_ix limit
    if partial_df.isEmpty then ([], 1, d')
    else if partial_df.length < limit then ([partial_df], 1, d')
    else
      let r := safeQueryGo fetch limit d' (batch_ix + 1) rem
      (partial_df :: r.1, r.2.1 + 1, r.2.2)

/-- Rows of the DataFrame `Redash.safe_query` returns: `pd.concat(dfs)`
(an empty DataFrame when no page was kept). -/
def safe_query_rows (fetch : Nat → Nat → List (List Int)) (limit max_iter : Nat) :
    List (List Int) :=
  (safeQueryGo fetch limit [] 0 max_iter).1.flatten

/-- Number of `self.query` calls `Redash.safe_query` makes. -/
def safe_query_calls (fetch : Nat → Nat → List (List Int)) (limit max_iter : Nat) : Nat :=
  (safeQueryGo fetch limit [] 0 max_iter).2.1

/-- The caller's `params` dict after `Redash.safe_query` returns.
`params = params or {}` (line 294) rebinds the local name to a *fresh* dict
when the caller's dict is empty (falsy), so only a non-empty caller dict is
mutated in place by the loop's `params.update`. -/
def safe_query_callerParamsAfter (params : Dict) (fetch : Nat → Nat → List (List Int))
    (limit max_iter : Nat) : Dict :=
  if params.isEmpty then params
  else (safeQueryGo fetch limit params 0 max_iter).2.2

/-- A page of `limit` rows starting at `offset` from a fixed backing data
source, as a correctly parameterized Redash query would serve it. -/
def pageOf (data : List (List Int)) (offset limit : Nat) : List (List Int) :=
  (data.drop offset).take limit

/-- Python exceptions raised by `Redash.period_limited_query`. -/
inductive PyErr
  | assertionError (msg : String)
  | valueError (msg : String)
  | attributeError (msg : String)
deriving DecidableEq

/-- `Redash.period_limited_query` (redash.py lines 321-410).

The source validates its arguments (asserts and the interval membership
check), then evaluates `interval.freq_code` (line 372) — but `interval` is a
plain `str` (as annotated and as used in the function's own docstring
example), and `str` has no attribute `freq_code`, so every call that passes
validation raises `AttributeError` there.  Lines 374-410 (date-range
construction, the query loop and its `params.update`) are unreachable.
Returns the outcome together with the caller's `params` dict state when
control leaves the function (unchanged: every raise precedes line 390's
update). -/
def period_limited_query (start_date end_date interval : String)
    (interval_multiple : Int) (params : Dict) :
    Except PyErr (List (List Int)) × Dict :=
  if start_date = "" then
    (.error (.assertionError "`start_date` must be defined."), params)
  else if end_date = "" then
    (.error (.assertionError "`end_date` must be defined."), params)
  else if interval = "" then
    (.error (.assertionError "`interval` must be defined."), params)
  else if interval_multiple ≤ 0 then
    (.error (.assertionError "`interval_multiple` must be greater than 0."), params)
  else if ¬ (interval = "day" ∨ interval = "week" ∨ interval = "month" ∨
      interval = "quarter" ∨ interval = "year") then
    (.error (.valueError "`interval` must be one of day, week, month, quarter, year."), params)
  else
    (.error (.attributeError "str object has no attribute freq_code"), params)

/-- A calendar date. -/
structure Date where
  year : Nat
  month : Nat
  day : Nat
deriving DecidableEq

/-- Months elapsed since year 0, identifying a (year, month) pair. -/
def monthIndex (y m : Nat) : Nat := y * 12 + (m - 1)

/-- The first day of the month with the given `monthIndex`. -/
def dateOfMonthIndex (i : Nat) : Date := ⟨i / 12, i % 12 + 1, 1⟩

/-- Modelled from the spec: the calendar boundary points at month
granularity — the month starts d with start_date ≤ d ≤ end_date (what
`pd.date_range(start, end, freq=...)` would produce for a month-start
frequency; the `Interval` enum that supplies the pandas freq code is
referenced by the source's docstring but missing from the repository). -/
def monthStartsBetween (start stop : Date) : List Date :=
  let lo := monthIndex start.year start.month + (if start.day ≤ 1 then 0 else 1)
  let hi := monthIndex stop.year stop.month
  (List.range (hi + 1 - lo)).map (fun k => dateOfMonthIndex (lo + k))

/-- Modelled from the spec: the sub-ranges the month-granularity partitioner
(multiple = 1) generates — each kept boundary starts a sub-range ending at
the next boundary, the final sub-range ends at end_date; if no boundary falls
in the range the whole range is one sub-range; if the first boundary is not
start_date, start_date is prepended as an explicit sub-range start. -/
def specMonthlySubRanges (start stop : Date) : List (Date × Date) :=
  match monthStartsBetween start stop with
  | [] => [(start, stop)]
  | b :: bs =>
    let starts := if b = start then b :: bs else start :: b :: bs
    starts.zip (starts.tail ++ [stop])

/-- `match`-free view of construction success, for stating the corrected
configuration claim. -/
def constructionSucceeds (credentials : Option CredFile) (apikey endpoint : String) : Bool :=
  match redash_init credentials apikey endpoint with
  | .ok _ => true
  | .error _ => false

/-- A backing data source of exactly 250 rows, one `Int` cell per row. -/
def dataSource250 : List (List Int) :=
  (List.range 250).map (fun i => [(i : Int)])

/-- A poll-script entry that keeps the loop going: a job-update response with
a non-terminal status, observed within the job-wait timeout. -/
def benignEntry (query_timeout : Nat) (p : PollEntry × Nat) : Prop :=
  (∃ s, p.1 = PollEntry.update s ∧ s.isActive = true) ∧ p.2 ≤ query_timeout

-- ### Helper lemmas

lemma wait_through_benign_prefix (query_timeout : Nat) (pre : List (PollEntry × Nat))
    (hpre : ∀ p ∈ pre, benignEntry query_timeout p) :
    ∀ (s : JobStatus), s.isActive = true →
    ∀ (rest : List (PollEntry × Nat)) (gets : Nat),
      ∃ s2, s2.isActive = true ∧
        wait_for_job_status query_timeout s (pre ++ rest) gets =
          wait_for_job_status query_timeout s2 rest (gets + pre.length) := by
  induction pre with
  | nil =>
    intro s hs rest gets
    exact ⟨s, hs, by simp⟩
  | cons p pre ih =>
    intro s hs rest gets
    obtain ⟨⟨s1, hp1, hact⟩, ht⟩ := hpre p (by simp)
    obtain ⟨e, t⟩ := p
    simp only at hp1
    subst hp1
    have hrec :
        wait_for_job_status query_timeout s ((PollEntry.update s1, t) :: (pre ++ rest)) gets =
          wait_for_job_status query_timeout s1 (pre ++ rest) (gets + 1) := by
      rw [wait_for_job_status.eq_def]
      simp [hs, Nat.not_lt.mpr ht]
    obtain ⟨s2, hs2, heq⟩ := ih (fun q hq => hpre q (by simp [hq])) s1 hact rest (gets + 1)
    refine ⟨s2, hs2, ?_⟩
    rw [List.cons_append, hrec, heq]
    congr 1
    simp only [List.length_cons]
    omega

lemma wait_not_active (query_timeout : Nat) (s : JobStatus) (hs : s.isActive = false)
    (script : List (PollEntry × Nat)) (gets : Nat) :
    wait_for_job_status query_timeout s script gets = .finished s gets := by
  rw [wait_for_job_status.eq_def, hs]
  simp

lemma dictGet_dictSet_same (d : Dict) (k : String) (v : PyVal) :
    dictGet (dictSet d k v) k = some v := by
  induction d with
  | nil => simp [dictSet, dictGet]
  | cons p rest ih =>
    by_cases hp : p.1 = k
    · simp [dictSet, dictGet, hp]
    · simp [dictSet, dictGet, hp, ih]

lemma dictGet_dictSet_other (d : Dict) (k k2 : String) (v : PyVal) (h : k2 ≠ k) :
    dictGet (dictSet d k v) k2 = dictGet d k2 := by
  induction d with
  | nil => simp [dictSet, dictGet, Ne.symm h]
  | cons p rest ih =>
    by_cases hp : p.1 = k
    · have hk2 : ¬ p.1 = k2 := by rw [hp]; exact Ne.symm h
      simp [dictSet, dictGet, hp, hk2, Ne.symm h]
    · by_cases hp2 : p.1 = k2
      · simp [dictSet, dictGet, hp, hp2, h]
      · simp [dictSet, dictGet, hp, hp2, ih]

lemma safeQueryGo_calls_full (fetch : Nat → Nat → List (List Int)) (limit : Nat)
    (hpos : 0 < limit)
    (hfull : ∀ ix, (fetch (ix * limit) limit).length = limit) :
    ∀ (rem : Nat) (d : Dict) (ix : Nat),
      (safeQueryGo fetch limit d ix rem).2.1 = rem := by
  intro rem
  induction rem with
  | zero => intro d ix; rfl
  | succ r ih =>
    intro d ix
    have hlen := hfull ix
    have hne : (fetch (ix * limit) limit).isEmpty = false := by
      cases hfe : fetch (ix * limit) limit with
      | nil => rw [hfe] at hlen; simp at hlen; omega
      | cons a as => rfl
    have hlt : ¬ (fetch (ix * limit) limit).length < limit := by omega
    simp [safeQueryGo, hne, hlt, ih]

lemma safeQueryGo_params_last (fetch : Nat → Nat → List (List Int)) (limit : Nat) :
    ∀ (rem ix : Nat) (d : Dict), 0 < rem →
      ∃ k d0, ix ≤ k ∧ k < ix + rem ∧
        (safeQueryGo fetch limit d ix rem).2.2 = safeQueryUpdate d0 (k * limit) limit := by
  intro rem
  induction rem with
  | zero => intro ix d h; exact absurd h (by omega)
  | succ r ih =>
    intro ix d _
    by_cases he : (fetch (ix * limit) limit).isEmpty
    · exact ⟨ix, d, le_refl ix, by omega, by simp [safeQueryGo, he]⟩
    · by_cases hs : (fetch (ix * limit) limit).length < limit
      · exact ⟨ix, d, le_refl ix, by omega, by simp [safeQueryGo, he, hs]⟩
      · cases r with
        | zero =>
          refine ⟨ix, d, le_refl ix, by omega, ?_⟩
          simp [safeQueryGo, he, hs]
        | succ r2 =>
          obtain ⟨k, d0, h1, h2, h3⟩ :=
            ih (ix + 1) (safeQueryUpdate d (ix * limit) limit) (by omega)
          refine ⟨k, d0, by omega, by omega, ?_⟩
          simpa [safeQueryGo, he, hs] using h3

lemma fetchStage_ne_jobFailedClassified (j : Job) (fetch : Nat → FetchResp) (b : Bool) :
    fetchStage j fetch ≠ QueryOutcome.jobFailedClassified b := by
  cases hq : j.query_result_id with
  | none => simp [fetchStage, hq]
  | some rid =>
    cases hr : fetch rid with
    | code502 => simp [fetchStage, hq, hr]
    | payload cols rows => simp [fetchStage, hq, hr]
    | badShape => simp [fetchStage, hq, hr]

-- ### Claim theorems

/-- C6 (confirmed): for the scripted status-response sequence
PENDING, STARTED, SUCCESS (initial submission status PENDING), the poll loop
issues exactly one status GET per intermediate status and one for the first
terminal status — three GETs in total — and exits there, consuming none of
the further scripted responses. -/
theorem claim_C6_one_get_per_scripted_status :
    ∀ extra : List (PollEntry × Nat),
      wait_for_job_status 300 .pending
        ([(.update .pending, 1), (.update .started, 2), (.update .success, 3)] ++ extra) 0 =
      .finished .success 3 := by
  intro extra
  simp only [List.cons_append, List.nil_append]
  rw [wait_for_job_status.eq_def]
  norm_num [JobStatus.isActive]
  rw [wait_for_job_status.eq_def]
  norm_num
  rw [wait_for_job_status.eq_def]
  norm_num
  exact wait_not_active 300 .success rfl extra 3

set_option maxRecDepth 8192 in
/-- C7 (confirmed): over a backing data source of exactly 250 rows with
page size 100 (and the source default of 100 max iterations), `safe_query`
makes exactly 3 underlying query calls (pages of 100, 100, 50), returns all
250 rows in fetch order, and stops on the short page before the iteration
cap. -/
theorem claim_C7_pagination_250_rows :
    safe_query_calls (fun off lim => pageOf dataSource250 off lim) 100 100 = 3 ∧
    safe_query_rows (fun off lim => pageOf dataSource250 off lim) 100 100 = dataSource250 ∧
    (3 : Nat) < 100 :=
  ⟨rfl, rfl, by omega⟩

/-- C3 (code_bug): at the claimed input
(start_date 2024-01-01, end_date 2024-03-15, month granularity, multiple 1)
`period_limited_query` raises `AttributeError` — line 372 evaluates
`interval.freq_code` on a plain `str` — instead of generating the
sub-ranges; the spec-modelled partition at that input is exactly the three
claimed sub-ranges [01-01,02-01), [02-01,03-01), [03-01,03-15]. -/
theorem claim_C3_partitioner_crashes_at_claimed_input :
    period_limited_query "2024-01-01" "2024-03-15" "month" 1 [] =
      (.error (.attributeError "str object has no attribute freq_code"), []) ∧
    specMonthlySubRanges ⟨2024, 1, 1⟩ ⟨2024, 3, 15⟩ =
      [(⟨2024, 1, 1⟩, ⟨2024, 2, 1⟩), (⟨2024, 2, 1⟩, ⟨2024, 3, 1⟩),
        (⟨2024, 3, 1⟩, ⟨2024, 3, 15⟩)] :=
  ⟨rfl, rfl⟩

/-- C4 (counterexample): a credentials file providing only the endpoint,
together with an explicit non-empty apikey, merges (per the claim, explicit
overriding file) to two non-empty values — yet construction fails, because
`__init__` takes both values from the file exclusively. -/
theorem claim_C4_counterexample :
    specMergeSucceeds (some ⟨some "https://r.example", none⟩) "KEY" "" = true ∧
    redash_init (some ⟨some "https://r.example", none⟩) "KEY" "" =
      .error "You are missing the Redash API key or the Redash endpoint." :=
  ⟨rfl, rfl⟩

/-- C4 (amended): construction succeeds iff both endpoint and api key are
present and non-empty in the chosen source — the credentials file
exclusively when a file path is supplied (explicit arguments are then
ignored), the explicit arguments otherwise. -/
theorem claim_C4_amended_no_merging :
    ∀ (credentials : Option CredFile) (apikey endpoint : String),
      constructionSucceeds credentials apikey endpoint =
        chosenValuesPresent credentials apikey endpoint := by
  intro c ak ep
  cases c with
  | none =>
    by_cases hak : ak = "" <;> by_cases hep : ep = "" <;>
      simp [constructionSucceeds, redash_init, chosenValuesPresent, truthyOpt, hak, hep]
  | some f =>
    obtain ⟨fep, fak⟩ := f
    cases fep with
    | none =>
      cases fak <;>
        simp [constructionSucceeds, redash_init, chosenValuesPresent, truthyOpt]
    | some se =>
      cases fak with
      | none => simp [constructionSucceeds, redash_init, chosenValuesPresent, truthyOpt]
      | some sa =>
        by_cases h1 : se = "" <;> by_cases h2 : sa = "" <;>
          simp [constructionSucceeds, redash_init, chosenValuesPresent, truthyOpt, h1, h2]

/-- C8 (confirmed): when every page the data source serves is a full page
(exactly `limit` rows, `limit` positive), `safe_query` never hits the
short-page or empty-page break and performs exactly `max_iter` underlying
query calls. -/
theorem claim_C8_full_pages_hit_max_iter (fetch : Nat → Nat → List (List Int))
    (limit max_iter : Nat) (hpos : 0 < limit)
    (hfull : ∀ ix, (fetch (ix * limit) limit).length = limit) :
    safe_query_calls fetch limit max_iter = max_iter :=
  safeQueryGo_calls_full fetch limit hpos hfull max_iter [] 0

/-- Witness for C8: a source always serving 2-row pages with `limit = 2`
makes `safe_query` perform exactly `max_iter = 3` calls. -/
theorem claim_C8_witness :
    safe_query_calls (fun _ _ => [[0], [1]]) 2 3 = 3 :=
  claim_C8_full_pages_hit_max_iter (fun _ _ => [[0], [1]]) 2 3 (by omega) (fun _ => rfl)

/-- C9 (counterexample): `safe_query` called with a caller-supplied *empty*
params dict does not mutate it — `params = params or {}` rebinds the local
name to a fresh dict — so after a call that ran two iterations the caller's
dict still has no `offset_rows` key, contradicting the claim that every
caller-supplied dict ends up with the injected keys. -/
theorem claim_C9_counterexample :
    safe_query_callerParamsAfter [] (fun _ _ => [[0]]) 1 2 = [] ∧
    dictGet (safe_query_callerParamsAfter [] (fun _ _ => [[0]]) 1 2) "offset_rows" = none :=
  ⟨rfl, rfl⟩

/-- C9 (amended): `safe_query` mutates a *non-empty* caller-supplied params
dict in place, leaving `offset_rows = k * limit` for the last executed
iteration `k` and `limit_rows = limit`, overwriting any caller-supplied
values for those keys; `period_limited_query`, as coded, raises before its
loop (AttributeError at `interval.freq_code`, or a validation error), so it
returns the caller's dict entirely unchanged and never injects
`start_date`/`end_date`. -/
theorem claim_C9_amended_mutation :
    (∀ (params : Dict) (fetch : Nat → Nat → List (List Int)) (limit max_iter : Nat),
      params ≠ [] → 0 < max_iter →
      ∃ k, k < max_iter ∧
        dictGet (safe_query_callerParamsAfter params fetch limit max_iter) "offset_rows" =
          some (.int ((k * limit : Nat))) ∧
        dictGet (safe_query_callerParamsAfter params fetch limit max_iter) "limit_rows" =
          some (.int limit)) ∧
    (∀ (start_date end_date interval : String) (interval_multiple : Int) (params : Dict),
      (period_limited_query start_date end_date interval interval_multiple params).2 =
        params) := by
  constructor
  · intro params fetch limit max_iter hne hpos
    obtain ⟨k, d0, hk1, hk2, h3⟩ := safeQueryGo_params_last fetch limit max_iter 0 params hpos
    have hempty : params.isEmpty = false := by
      cases params with
      | nil => exact absurd rfl hne
      | cons a l => rfl
    refine ⟨k, by omega, ?_, ?_⟩
    · simp only [safe_query_callerParamsAfter, hempty, Bool.false_eq_true, if_false]
      rw [h3, safeQueryUpdate, dictGet_dictSet_other _ _ _ _ (by decide), dictGet_dictSet_same]
    · simp only [safe_query_callerParamsAfter, hempty, Bool.false_eq_true, if_false]
      rw [h3, safeQueryUpdate, dictGet_dictSet_same]
  · intro s e i m params
    simp only [period_limited_query]
    split_ifs <;> rfl

/-- Witness for C9 (amended): a one-entry caller dict, `limit = 5`,
`max_iter = 1`, a source returning an empty page; and the partitioner at the
claimed C3 arguments leaves the caller dict untouched. -/
theorem claim_C9_witness :
    (∃ k : Nat, k < 1 ∧
      dictGet (safe_query_callerParamsAfter [("station", .str "tokyo")] (fun _ _ => []) 5 1)
        "offset_rows" = some (.int ((k * 5 : Nat))) ∧
      dictGet (safe_query_callerParamsAfter [("station", .str "tokyo")] (fun _ _ => []) 5 1)
        "limit_rows" = some (.int ((5 : Nat)))) ∧
    (period_limited_query "2023-01-01" "2024-06-20" "month" 3
      [("station", .str "tokyo")]).2 = [("station", .str "tokyo")] :=
  ⟨claim_C9_amended_mutation.1 [("station", .str "tokyo")] (fun _ _ => []) 5 1
      (by simp) (by omega),
    claim_C9_amended_mutation.2 "2023-01-01" "2024-06-20" "month" 3
      [("station", .str "tokyo")]⟩

/-- C5 (confirmed): when the poll responses up to the timeout are in-time
non-terminal job updates and the next response is observed past the
job-wait timeout, `query` fails with the timeout classification after
exactly `pre.length + 1` status GETs — no network call follows the
detection (in particular no result fetch). -/
theorem claim_C5_job_wait_timeout (job : Job) (query_timeout t : Nat)
    (pre rest : List (PollEntry × Nat)) (s : JobStatus) (fetch : Nat → FetchResp)
    (hjob : job.status.isActive = true)
    (hpre : ∀ p ∈ pre, benignEntry query_timeout p)
    (ht : query_timeout < t) :
    query (.job job) (pre ++ (.update s, t) :: rest) query_timeout fetch =
      .jobTimeout (pre.length + 1) := by
  obtain ⟨s2, hs2, heq⟩ :=
    wait_through_benign_prefix query_timeout pre hpre job.status hjob
      ((.update s, t) :: rest) 0
  have hstep : wait_for_job_status query_timeout s2 ((.update s, t) :: rest)
      (0 + pre.length) = .timedOut (0 + pre.length + 1) := by
    rw [wait_for_job_status.eq_def]
    simp [hs2, ht]
  have hwait : wait_for_job_status query_timeout job.status
      (pre ++ (.update s, t) :: rest) 0 = .timedOut (pre.length + 1) := by
    rw [heq, hstep]
    congr 1
    omega
  have hnc : ¬ job.status = JobStatus.cancelled := by
    intro h
    rw [h] at hjob
    simp [JobStatus.isActive] at hjob
  have hnf : ¬ job.status = JobStatus.failure := by
    intro h
    rw [h] at hjob
    simp [JobStatus.isActive] at hjob
  simp [query, hnc, hnf, hwait]

/-- Witness for C5: initial status PENDING, one in-time STARTED update, then
an update observed at 301s against a 300s timeout: the call fails with the
timeout classification after exactly 2 status GETs. -/
theorem claim_C5_witness :
    query (.job ⟨1, .pending, "", some 3⟩)
      [(.update .started, 1), (.update .started, 301)] 300 (fun _ => .badShape) =
      .jobTimeout 2 :=
  claim_C5_job_wait_timeout ⟨1, .pending, "", some 3⟩ 300 301
    [(.update .started, 1)] [] .started (fun _ => .badShape) rfl
    (by
      intro p hp
      simp only [List.mem_singleton] at hp
      subst hp
      exact ⟨⟨.started, rfl, rfl⟩, by omega⟩)
    (by omega)

/-- C10 (confirmed): a polling status GET answered with HTTP 502 (after any
run of in-time non-terminal updates) makes `_wait_for_job_status` return at
once without raising — `pre.length + 1` GETs, none after — while the
caller's job status is still non-terminal, and `query` then proceeds to
result retrieval driven by the job object of the original submission
response. -/
theorem claim_C10_gateway_502_soft_return (job : Job) (query_timeout tg : Nat)
    (pre rest : List (PollEntry × Nat)) (fetch : Nat → FetchResp)
    (hjob : job.status.isActive = true)
    (hpre : ∀ p ∈ pre, benignEntry query_timeout p) :
    wait_for_job_status query_timeout job.status (pre ++ (.gateway502, tg) :: rest) 0 =
      .gatewayReturn (pre.length + 1) ∧
    query (.job job) (pre ++ (.gateway502, tg) :: rest) query_timeout fetch =
      fetchStage job fetch := by
  obtain ⟨s2, hs2, heq⟩ :=
    wait_through_benign_prefix query_timeout pre hpre job.status hjob
      ((.gateway502, tg) :: rest) 0
  have hstep : wait_for_job_status query_timeout s2 ((.gateway502, tg) :: rest)
      (0 + pre.length) = .gatewayReturn (0 + pre.length + 1) := by
    rw [wait_for_job_status.eq_def]
    simp [hs2]
  have hwait : wait_for_job_status query_timeout job.status
      (pre ++ (.gateway502, tg) :: rest) 0 = .gatewayReturn (pre.length + 1) := by
    rw [heq, hstep]
    congr 1
    omega
  have hnc : ¬ job.status = JobStatus.cancelled := by
    intro h
    rw [h] at hjob
    simp [JobStatus.isActive] at hjob
  have hnf : ¬ job.status = JobStatus.failure := by
    intro h
    rw [h] at hjob
    simp [JobStatus.isActive] at hjob
  exact ⟨hwait, by simp [query, hnc, hnf, hwait]⟩

/-- Witness for C10: status PENDING, one in-time STARTED update, then a 502:
the wait returns after 2 GETs and the call fetches the result named by the
submission response's job object. -/
theorem claim_C10_witness :
    wait_for_job_status 300 JobStatus.pending
      [(.update .started, 5), (.gateway502, 6)] 0 = .gatewayReturn 2 ∧
    query (.job ⟨1, .pending, "", some 7⟩)
      [(.update .started, 5), (.gateway502, 6)] 300
      (fun _ => .payload ["a"] [[1]]) = .dataframe ["a"] [[1]] :=
  claim_C10_gateway_502_soft_return ⟨1, .pending, "", some 7⟩ 300 6
    [(.update .started, 5)] [] (fun _ => .payload ["a"] [[1]]) rfl
    (by
      intro p hp
      simp only [List.mem_singleton] at hp
      subst hp
      exact ⟨⟨.started, rfl, rfl⟩, by omega⟩)

/-- C1 (code_bug): when the polling loop exits because it observed FAILURE,
`query` does *not* fail with the classified JobFailed error: the status
update is local to `_wait_for_job_status` (which returns `None`), so the
caller's `job_status` stays at its pre-poll value and the call proceeds to
result retrieval — here all the way to a DataFrame.  Moreover no execution
whatsoever can produce the classified-failure outcome: the branch at lines
225-234 that distinguishes the `signal 9` resource-exhaustion marker is dead
code. -/
theorem claim_C1_poll_failure_never_classified :
    query (.job ⟨1, .pending, "", some 5⟩) [(.update .failure, 1)] 300
      (fun _ => .payload ["a"] [[7]]) = .dataframe ["a"] [[7]] ∧
    ∀ (sub : SubmitResult) (script : List (PollEntry × Nat)) (query_timeout : Nat)
      (fetch : Nat → FetchResp) (b : Bool),
      decide (query sub script query_timeout fetch = .jobFailedClassified b) = false := by
  refine ⟨rfl, ?_⟩
  intro sub script query_timeout fetch b
  rw [decide_eq_false_iff_not]
  intro hcontra
  cases sub with
  | message m => simp [query] at hcontra
  | job j =>
    by_cases hc : j.status = JobStatus.cancelled
    · simp [query, hc] at hcontra
    · by_cases hf : j.status = JobStatus.failure
      · simp [query, hc, hf] at hcontra
      · rcases hw : wait_for_job_status query_timeout j.status script 0 with ⟨s, g⟩ | g | g | g
        · exact fetchStage_ne_jobFailedClassified j fetch b
            (by simpa [query, hc, hf, hw] using hcontra)
        · exact fetchStage_ne_jobFailedClassified j fetch b
            (by simpa [query, hc, hf, hw] using hcontra)
        · simp [query, hc, hf, hw] at hcontra
        · simp [query, hc, hf, hw] at hcontra

/-- C2 (counterexample): a single-query execution whose result-fetch GET is
answered with HTTP 502 raises the gateway RuntimeError (lines 247-250); it
does not return a DataFrame, empty or otherwise. -/
theorem claim_C2_counterexample :
    query (.job ⟨1, .success, "", some 7⟩) [] 300 (fun _ => .code502) =
      .fetchGateway502 ∧
    ∀ (cols : List String) (rows : List (List Int)),
      decide (query (.job ⟨1, .success, "", some 7⟩) [] 300 (fun _ => .code502) =
        .dataframe cols rows) = false := by
  refine ⟨rfl, ?_⟩
  intro cols rows
  rw [decide_eq_false_iff_not]
  intro h
  rw [show query (.job ⟨1, .success, "", some 7⟩) [] 300 (fun _ => .code502) =
      .fetchGateway502 from rfl] at h
  exact QueryOutcome.noConfusion h

/-- C2 (amended): every single-query execution that reaches result retrieval
and gets a 502 on the result-fetch call fails with the gateway error; the
soft 502-to-empty treatment belongs to the polling status GET, not to the
result fetch. -/
theorem claim_C2_amended_fetch_502_raises (job : Job) (script : List (PollEntry × Nat))
    (query_timeout rid : Nat) (fetch : Nat → FetchResp)
    (hnf : job.status ≠ JobStatus.failure) (hnc : job.status ≠ JobStatus.cancelled)
    (hwait : (∃ s g, wait_for_job_status query_timeout job.status script 0 =
        .finished s g) ∨
      (∃ g, wait_for_job_status query_timeout job.status script 0 = .gatewayReturn g))
    (hrid : job.query_result_id = some rid)
    (h502 : fetch rid = .code502) :
    query (.job job) script query_timeout fetch = .fetchGateway502 := by
  rcases hwait with ⟨s, g, hw⟩ | ⟨g, hw⟩ <;>
    simp [query, hnf, hnc, hw, fetchStage, hrid, h502]

/-- Witness for C2 (amended): a submission already in SUCCESS (cached
result), result id 7, and a 502 on the result fetch: the call raises the
gateway error. -/
theorem claim_C2_witness :
    query (.job ⟨2, .success, "", some 7⟩) [] 60 (fun _ => .code502) =
      .fetchGateway502 :=
  claim_C2_amended_fetch_502_raises ⟨2, .success, "", some 7⟩ [] 60 7
    (fun _ => .code502) (by decide) (by decide)
    (Or.inl ⟨.success, 0, rfl⟩) rfl rfl

end Redash
